import Mathlib

/-!
# Verification of the `ModelManager` core of `logo_generator_backend`

A shallow embedding of `src/app/model_manager.py`, the concurrent resource
gate of the repository: singleton accessor (`get_instance`), lifecycle
(`load_model`, `warmup`, `cleanup`) and gated job submission
(`generate_image`).

The Python state lives in the fields of the `ModelManager` object plus the
class-level `_instance` global.  The embedding makes that state explicit:

* `MState` mirrors the instance fields set in `__init__` (lines 29-42):
  `pipeline`, `device`, `model_loaded`, `semaphore` (modelled by its
  capacity, since `asyncio.Semaphore(n)` is determined by `n`), the thread
  pool's `max_workers`, and whether the pool has been shut down.
* The class attribute `_instance` is an `Option MState` threaded through
  `get_instance`.
* Blocking collaborators (the expensive `FluxPipeline.from_pretrained`
  load, the inference call) are opaque: their outcomes are passed in as
  `Except String _` parameters, success carrying an abstract handle.
* Exceptions are values: a function returns its post-state together with
  an `Option Err`; `none` means normal return, `some e` means the Python
  call raised, classified by the spec's error taxonomy.

Concurrency of `generate_image` is treated separately by a small-step
transition system (`GateSys`/`Step`) over the semaphore count and the
per-call phases, matching the two suspension points of the coroutine
(semaphore acquire at line 294, executor hand-off at line 305).
-/

namespace LogoGen

/-- Accelerator availability of the host, as queried by
`torch.cuda.is_available()` and `torch.backends.mps.is_available()`. -/
structure Host where
  cuda_available : Bool
  mps_available : Bool
deriving DecidableEq, Repr

/-- Devices the manager can select (`model_manager.py` lines 32-38). -/
inductive Device where
  | cuda
  | mps
  | cpu
deriving DecidableEq, Repr

/-- Torch dtypes relevant to `load_model` (lines 154-160). -/
inductive Dtype where
  | float16
  | float32
deriving DecidableEq, Repr

/-- The spec's error taxonomy (§7), mapped onto the `RuntimeError`s the
Python raises: `NotReady` for the "Model not loaded" checks (lines 291,
208), `ResourceUnavailable` for the missing-accelerator check (line 140),
`LoadError` for an exception propagated out of `load_model`'s `try` block
(line 196), `JobError` for an exception propagated out of
`generate_image`'s `try` block (line 322). -/
inductive Err where
  | NotReady
  | ResourceUnavailable (msg : String)
  | LoadError (cause : String)
  | JobError (cause : String)
deriving DecidableEq, Repr

/-- Device detection in `__init__` (lines 32-38): CUDA, else MPS, else CPU. -/
def detectDevice (h : Host) : Device :=
  if h.cuda_available then Device.cuda
  else if h.mps_available then Device.mps
  else Device.cpu

/-- The mutable fields of a `ModelManager` instance.  `pipeline` holds an
abstract handle (`Nat`) standing for the loaded `FluxPipeline`;
`semaphore` is the capacity of `asyncio.Semaphore` once `get_instance`
has installed it (`None` right after `__init__`, line 40);
`executorMaxWorkers` is the `max_workers` of the `ThreadPoolExecutor`
(line 42); `executorShutdown` records whether `executor.shutdown` has run
(line 337), after which dispatching to it raises. -/
structure MState where
  pipeline : Option Nat
  device : Device
  model_loaded : Bool
  semaphore : Option Nat
  executorMaxWorkers : Nat
  executorShutdown : Bool
deriving DecidableEq, Repr

/-- `ModelManager.__init__` (lines 29-42): no pipeline, detected device,
not loaded, no semaphore yet, a thread pool with `max_workers=1`. -/
def initManager (host : Host) : MState :=
  { pipeline := none
    device := detectDevice host
    model_loaded := false
    semaphore := none
    executorMaxWorkers := 1
    executorShutdown := false }

/-- `ModelManager.get_instance` (lines 44-60) over the explicit global
`_instance`: if absent, construct the instance and install a semaphore of
capacity `max_concurrent_jobs`; otherwise return the existing instance
unchanged (the argument is ignored).  Returns the manager handed to the
caller together with the new value of `_instance`. -/
def get_instance (host : Host) (max_concurrent_jobs : Nat)
    (inst : Option MState) : MState × Option MState :=
  match inst with
  | some s => (s, some s)
  | none =>
      let s := { initManager host with semaphore := some max_concurrent_jobs }
      (s, some s)

/-- Dtype selection in `load_model` (lines 154-160): on MPS a requested
FP16 is overridden to FP32; otherwise FP16 iff requested. -/
def dtypeFor (device : Device) (use_fp16 : Bool) : Dtype :=
  if device = Device.mps ∧ use_fp16 then Dtype.float32
  else if use_fp16 then Dtype.float16 else Dtype.float32

/-- Outcome of one `load_model` call: the post-state of the instance, the
exception propagated to the caller (if any), whether the expensive load
(`_load_model_sync`, dispatched at lines 165-171) actually ran, and with
which dtype it was dispatched. -/
structure LoadOutcome where
  state : MState
  err : Option Err
  dispatched : Bool
  dispatchedDtype : Option Dtype
deriving DecidableEq, Repr

/-- `ModelManager.load_model` (lines 123-196).  `loadResult` is the
outcome of the opaque expensive load `_load_model_sync` (success carries
the pipeline handle).  Paths, in source order:

1. already loaded (line 134): return immediately, nothing dispatched;
2. no accelerator (lines 139-140): raise `ResourceUnavailable` before any
   dispatch, state untouched;
3. thread pool already shut down: `loop.run_in_executor` (line 165)
   raises `RuntimeError` when scheduling; the `except` clause (line 196)
   re-raises it, so the expensive load never runs and state is untouched;
4. dispatched load fails: the `except` clause re-raises (`LoadError`),
   the assignments at lines 165 and 184 never execute, state untouched;
5. dispatched load succeeds: store the handle, set `model_loaded` -/
def load_model (host : Host) (loadResult : Except String Nat)
    (use_fp16 : Bool) (s : MState) : LoadOutcome :=
  if s.model_loaded then
    { state := s, err := none, dispatched := false, dispatchedDtype := none }
  else if ¬ (host.cuda_available ∨ host.mps_available) then
    { state := s
      err := some (Err.ResourceUnavailable
        "No GPU acceleration available. This backend requires CUDA or MPS support.")
      dispatched := false, dispatchedDtype := none }
  else if s.executorShutdown then
    { state := s
      err := some (Err.LoadError "cannot schedule new futures after shutdown")
      dispatched := false, dispatchedDtype := none }
  else
    let dtype := dtypeFor s.device use_fp16
    match loadResult with
    | Except.ok handle =>
        { state := { s with pipeline := some handle, model_loaded := true }
          err := none, dispatched := true, dispatchedDtype := some dtype }
    | Except.error cause =>
        { state := s
          err := some (Err.LoadError cause)
          dispatched := true, dispatchedDtype := some dtype }

/-- A sequence of sequential `load_model` calls, one pre-decided load
outcome per call; returns the final state and how many times the
expensive load was dispatched. -/
def loadSeq (host : Host) (results : List (Except String Nat))
    (use_fp16 : Bool) (s : MState) : MState × Nat :=
  match results with
  | [] => (s, 0)
  | r :: rest =>
      let out := load_model host r use_fp16 s
      let tail := loadSeq host rest use_fp16 out.state
      (tail.1, (if out.dispatched then 1 else 0) + tail.2)

/-- `ModelManager.warmup` (lines 198-229).  `inferResult` is the outcome
of the opaque warmup inference.  If not loaded, raise `NotReady` (line
208).  Otherwise the whole dispatch sits inside `try ... except
Exception` (lines 212-229): success discards the image, failure is
logged and swallowed — either way the call returns normally with the
state untouched.  (A shut-down executor also raises inside the `try`, so
it too is swallowed.) -/
def warmup (inferResult : Except String Unit) (s : MState) :
    MState × Option Err :=
  if ¬ s.model_loaded then (s, some Err.NotReady)
  else
    match inferResult with
    | Except.ok _ => (s, none)
    | Except.error _ => (s, none)

/-- `ModelManager.cleanup` (lines 324-338): only when a pipeline is held,
drop it and clear `model_loaded` (lines 326-329); then shut the thread
pool down (line 337).  Total — the Python never raises here
(`executor.shutdown` is idempotent). -/
def cleanup (s : MState) : MState :=
  let s1 :=
    if s.pipeline ≠ none then
      { s with pipeline := none, model_loaded := false }
    else s
  { s1 with executorShutdown := true }

/-!
## Concurrency model of `generate_image`

`generate_image` (lines 264-322) is a coroutine run concurrently by many
callers over the shared semaphore.  Each in-flight call is in one of the
phases below; a scheduler step advances one call at a time, which is
exactly the atomicity asyncio provides between `await` points.
-/

/-- Phase of one in-flight `generate_image` call.
* `pending`: entered the function, has not yet reached line 290;
* `running`: past `async with self.semaphore` (line 294) and before its
  release — the call holds one permit;
* `finished failed`: the `async with` block was exited, releasing the
  permit; `failed = true` when the body raised and the `except` at line
  320-322 re-raised the error to the caller (a `JobError`), `failed =
  false` when the image was returned (line 318);
* `rejected`: failed the `model_loaded` check at line 290 and raised
  `NotReady` without ever touching the semaphore. -/
inductive JobPhase where
  | pending
  | running
  | finished (failed : Bool)
  | rejected
deriving DecidableEq, Repr

/-- Number of calls currently holding a permit. -/
def countRunning : List JobPhase → Nat
  | [] => 0
  | p :: rest => (if p = JobPhase.running then 1 else 0) + countRunning rest

/-- Shared state seen by concurrent `generate_image` calls: the semaphore
capacity (`max_concurrent_jobs` from `get_instance`), its current number
of held permits, the manager's `model_loaded` flag, and the phase of each
in-flight call. -/
structure GateSys where
  cap : Nat
  held : Nat
  model_loaded : Bool
  jobs : List JobPhase
deriving DecidableEq, Repr

/-- Scheduler steps between the `await` points of `generate_image`:

* `reject`: a pending call observes `model_loaded = false` at line 290
  and raises `NotReady` — no semaphore interaction;
* `acquire`: a pending call observes `model_loaded = true`, and
  `asyncio.Semaphore` grants it a permit only when fewer than `cap` are
  held (otherwise the call stays suspended, i.e. no step is enabled for
  it);
* `finish`: a running call leaves the `async with` block — normally or
  via the re-raise at line 322 — which releases its permit in both
  cases. -/
inductive Step : GateSys → GateSys → Prop where
  | reject (s : GateSys) (i : Nat)
      (hj : s.jobs.get? i = some JobPhase.pending)
      (hnl : s.model_loaded = false) :
      Step s { s with jobs := s.jobs.set i JobPhase.rejected }
  | acquire (s : GateSys) (i : Nat)
      (hj : s.jobs.get? i = some JobPhase.pending)
      (hl : s.model_loaded = true)
      (hc : s.held < s.cap) :
      Step s { s with held := s.held + 1
                      jobs := s.jobs.set i JobPhase.running }
  | finish (s : GateSys) (i : Nat) (failed : Bool)
      (hj : s.jobs.get? i = some JobPhase.running) :
      Step s { s with held := s.held - 1
                      jobs := s.jobs.set i (JobPhase.finished failed) }

/-- Initial state: `n` calls about to enter `generate_image`, no permit
held, gate capacity `m`, lifecycle flag `loaded`. -/
def initSys (m : Nat) (loaded : Bool) (n : Nat) : GateSys :=
  { cap := m, held := 0, model_loaded := loaded
    jobs := List.replicate n JobPhase.pending }

/-- States reachable by any interleaving of scheduler steps. -/
def Reachable (s t : GateSys) : Prop :=
  Relation.ReflTransGen Step s t

/-- The gate invariant: capacity and lifecycle flag are constants of the
system, the held-permit count is exactly the number of calls between
acquire and release, and it never exceeds the capacity. -/
def GateInv (m : Nat) (loaded : Bool) (s : GateSys) : Prop :=
  s.cap = m ∧ s.model_loaded = loaded ∧
    s.held = countRunning s.jobs ∧ s.held ≤ m

/-!
## Helper lemmas about the gate system
-/

theorem countRunning_set (l : List JobPhase) (i : Nat) (a b : JobPhase)
    (h : l.get? i = some a) :
    countRunning (l.set i b) + (if a = JobPhase.running then 1 else 0)
      = countRunning l + (if b = JobPhase.running then 1 else 0) := by
  induction l generalizing i with
  | nil => simp at h
  | cons x xs ih =>
      cases i with
      | zero =>
          simp only [List.get?_cons_zero, Option.some.injEq] at h
          subst h
          simp only [List.set_cons_zero, countRunning]
          omega
      | succ n =>
          simp only [List.get?_cons_succ] at h
          have hx := ih n h
          simp only [List.set_cons_succ, countRunning]
          omega

theorem countRunning_pos (l : List JobPhase) (i : Nat)
    (h : l.get? i = some JobPhase.running) : 1 ≤ countRunning l := by
  induction l generalizing i with
  | nil => simp at h
  | cons x xs ih =>
      cases i with
      | zero =>
          simp only [List.get?_cons_zero, Option.some.injEq] at h
          subst h
          simp [countRunning]
      | succ n =>
          simp only [List.get?_cons_succ] at h
          have hx := ih n h
          simp only [countRunning]
          omega

theorem countRunning_replicate_pending (n : Nat) :
    countRunning (List.replicate n JobPhase.pending) = 0 := by
  induction n with
  | zero => rfl
  | succ k ih => simpa [List.replicate_succ, countRunning] using ih

theorem gateInv_init (m : Nat) (loaded : Bool) (n : Nat) :
    GateInv m loaded (initSys m loaded n) :=
  ⟨rfl, rfl, by simp [initSys, countRunning_replicate_pending],
    Nat.zero_le m⟩

theorem gateInv_step {m : Nat} {loaded : Bool} {s t : GateSys}
    (hs : GateInv m loaded s) (hst : Step s t) : GateInv m loaded t := by
  obtain ⟨hcap, hml, hcount, hle⟩ := hs
  cases hst with
  | reject i hj hnl =>
      refine ⟨hcap, hml, ?_, hle⟩
      have h := countRunning_set s.jobs i JobPhase.pending JobPhase.rejected hj
      simp at h
      show s.held = countRunning (s.jobs.set i JobPhase.rejected)
      omega
  | acquire i hj hl hc =>
      have h := countRunning_set s.jobs i JobPhase.pending JobPhase.running hj
      simp at h
      refine ⟨hcap, hml, ?_, ?_⟩
      · show s.held + 1 = countRunning (s.jobs.set i JobPhase.running)
        omega
      · show s.held + 1 ≤ m
        omega
  | finish i failed hj =>
      have h := countRunning_set s.jobs i JobPhase.running
        (JobPhase.finished failed) hj
      simp at h
      have hpos := countRunning_pos s.jobs i hj
      refine ⟨hcap, hml, ?_, ?_⟩
      · show s.held - 1 = countRunning (s.jobs.set i (JobPhase.finished failed))
        omega
      · show s.held - 1 ≤ m
        omega

theorem gateInv_reachable {m : Nat} {loaded : Bool} {s t : GateSys}
    (hs : GateInv m loaded s) (h : Reachable s t) : GateInv m loaded t := by
  induction h with
  | refl => exact hs
  | tail _ hstep ih => exact gateInv_step ih hstep

/-- Invariant of a system whose manager was never loaded: no permit is
ever held and every call is still pending or was rejected with
`NotReady`. -/
def UnloadedInv (s : GateSys) : Prop :=
  s.model_loaded = false ∧ s.held = 0 ∧
    ∀ p ∈ s.jobs, p = JobPhase.pending ∨ p = JobPhase.rejected

theorem unloadedInv_step {s t : GateSys}
    (hs : UnloadedInv s) (hst : Step s t) : UnloadedInv t := by
  obtain ⟨hml, hheld, hjobs⟩ := hs
  cases hst with
  | reject i hj hnl =>
      refine ⟨hml, hheld, ?_⟩
      intro p hp
      rcases List.mem_or_eq_of_mem_set hp with hmem | rfl
      · exact hjobs p hmem
      · exact Or.inr rfl
  | acquire i hj hl hc =>
      rw [hml] at hl
      exact absurd hl (by simp)
  | finish i failed hj =>
      have hmem := List.get?_mem hj
      rcases hjobs _ hmem with h | h <;> exact absurd h (by simp)

theorem unloadedInv_reachable {s t : GateSys}
    (hs : UnloadedInv s) (h : Reachable s t) : UnloadedInv t := by
  induction h with
  | refl => exact hs
  | tail _ hstep ih => exact unloadedInv_step ih hstep

theorem unloadedInv_init (m n : Nat) : UnloadedInv (initSys m false n) :=
  ⟨rfl, rfl, fun _ hp => Or.inl (List.eq_of_mem_replicate hp)⟩

/-!
## Concrete scenario states shared by the witnesses
-/

/-- A host with CUDA and no MPS. -/
def cudaHost : Host := { cuda_available := true, mps_available := false }

/-- A host with MPS and no CUDA (Apple Silicon). -/
def mpsHost : Host := { cuda_available := false, mps_available := true }

/-- A host with no accelerator at all. -/
def cpuHost : Host := { cuda_available := false, mps_available := false }

/-- The instance handed out by the first `get_instance(2)` call on a CUDA
host: fresh manager, semaphore capacity 2. -/
def freshInst : MState := (get_instance cudaHost 2 none).1

/-- `freshInst` after a successful `load_model` (handle 7). -/
def loadedInst : MState :=
  (load_model cudaHost (Except.ok 7) true freshInst).state

/-!
## Claims about the concurrency gate (C1, C2, C3)
-/

/-- C1: every `generate_image` call made while the manager is not Ready
(`model_loaded = false`) fails with `NotReady` and never touches the
semaphore.  In any interleaving of submit calls against an unloaded
manager: the held-permit count stays exactly at its initial value (0,
so no failing call ever acquired a permit), every call is still pending
or was rejected with `NotReady` (none ever ran), and every pending call
can fail immediately via the `reject` step. -/
theorem submit_notReady_fails_without_permit (m n : Nat) (s : GateSys)
    (h : Reachable (initSys m false n) s) :
    (s.held = (initSys m false n).held ∧
      ∀ p ∈ s.jobs, p = JobPhase.pending ∨ p = JobPhase.rejected) ∧
    (∀ i, s.jobs.get? i = some JobPhase.pending →
      Step s { s with jobs := s.jobs.set i JobPhase.rejected }) := by
  have hinv := unloadedInv_reachable (unloadedInv_init m n) h
  obtain ⟨hml, hheld, hjobs⟩ := hinv
  refine ⟨⟨?_, hjobs⟩, fun i hi => Step.reject s i hi hml⟩
  simpa [initSys] using hheld

/-- C1 witness: gate capacity 2, one submit call against the unloaded
manager, after that call has been rejected. -/
theorem submit_notReady_fails_without_permit_witness :
    ((GateSys.mk 2 0 false [JobPhase.rejected]).held
        = (initSys 2 false 1).held ∧
      ∀ p ∈ (GateSys.mk 2 0 false [JobPhase.rejected]).jobs,
        p = JobPhase.pending ∨ p = JobPhase.rejected) ∧
    (∀ i, (GateSys.mk 2 0 false [JobPhase.rejected]).jobs.get? i
        = some JobPhase.pending →
      Step (GateSys.mk 2 0 false [JobPhase.rejected])
        { GateSys.mk 2 0 false [JobPhase.rejected] with
            jobs := (GateSys.mk 2 0 false [JobPhase.rejected]).jobs.set i
              JobPhase.rejected }) :=
  submit_notReady_fails_without_permit 2 1
    (GateSys.mk 2 0 false [JobPhase.rejected])
    (Relation.ReflTransGen.single
      (Step.reject (initSys 2 false 1) 0 (by decide) rfl))

/-- C2: the gate capacity is fixed at `get_instance` time (the semaphore
is created with capacity `m` by the first call), and for every capacity
`m`, every number of concurrent submit calls `n`, and every reachable
interleaving state, the held-permit count satisfies `0 ≤ held ≤ m`:
never more than `m` calls are simultaneously past the acquire point and
before release. -/
theorem gate_capacity_bound (host : Host) (m n : Nat) (loaded : Bool)
    (s : GateSys) (h : Reachable (initSys m loaded n) s) :
    (get_instance host m none).1.semaphore = some m ∧
    0 ≤ s.held ∧ s.held ≤ m := by
  have hinv := gateInv_reachable (gateInv_init m loaded n) h
  exact ⟨rfl, Nat.zero_le _, hinv.2.2.2⟩

/-- C2 witness: capacity 2, three concurrent calls, after one call has
acquired a permit. -/
theorem gate_capacity_bound_witness :
    (get_instance cudaHost 2 none).1.semaphore = some 2 ∧
    0 ≤ (GateSys.mk 2 1 true
        [JobPhase.running, JobPhase.pending, JobPhase.pending]).held ∧
    (GateSys.mk 2 1 true
        [JobPhase.running, JobPhase.pending, JobPhase.pending]).held ≤ 2 :=
  gate_capacity_bound cudaHost 2 3 true
    (GateSys.mk 2 1 true [JobPhase.running, JobPhase.pending, JobPhase.pending])
    (Relation.ReflTransGen.single
      (Step.acquire (initSys 2 true 3) 0 (by decide) rfl (by decide)))

/-- C3: a permit, once acquired, is released on every exit path.  In any
reachable state the held count equals the number of calls currently
between acquire and release — so every completed call, whether it
returned an image (`finished false`) or propagated a `JobError`
(`finished true`), has given its permit back — the lifecycle flag
`model_loaded` is untouched by submit traffic, and every running call
can take its `finish` step (in either outcome), which decrements the
held count by exactly one and leaves `model_loaded` unchanged, so
subsequent submits are unaffected by one job's failure. -/
theorem permit_released_on_all_paths (m n : Nat) (loaded : Bool)
    (s : GateSys) (h : Reachable (initSys m loaded n) s) :
    (s.model_loaded = loaded ∧ s.held = countRunning s.jobs) ∧
    (∀ i failed, s.jobs.get? i = some JobPhase.running →
      Step s { s with held := s.held - 1
                      jobs := s.jobs.set i (JobPhase.finished failed) } ∧
      s.held - 1 + 1 = s.held ∧
      ({ s with held := s.held - 1
                jobs := s.jobs.set i (JobPhase.finished failed) }
          : GateSys).model_loaded = loaded) := by
  have hinv := gateInv_reachable (gateInv_init m loaded n) h
  obtain ⟨hcap, hml, hcount, hle⟩ := hinv
  refine ⟨⟨hml, hcount⟩, fun i failed hi => ?_⟩
  have hpos := countRunning_pos s.jobs i hi
  exact ⟨Step.finish s i failed hi, by omega, hml⟩

/-- C3 witness: capacity 1, one call holding the permit against the
loaded manager; its failure step exists and releases the permit. -/
theorem permit_released_on_all_paths_witness :
    ((GateSys.mk 1 1 true [JobPhase.running]).model_loaded = true ∧
      (GateSys.mk 1 1 true [JobPhase.running]).held
        = countRunning (GateSys.mk 1 1 true [JobPhase.running]).jobs) ∧
    (∀ i failed,
      (GateSys.mk 1 1 true [JobPhase.running]).jobs.get? i
          = some JobPhase.running →
      Step (GateSys.mk 1 1 true [JobPhase.running])
        { GateSys.mk 1 1 true [JobPhase.running] with
            held := (GateSys.mk 1 1 true [JobPhase.running]).held - 1
            jobs := (GateSys.mk 1 1 true [JobPhase.running]).jobs.set i
              (JobPhase.finished failed) } ∧
      (GateSys.mk 1 1 true [JobPhase.running]).held - 1 + 1
          = (GateSys.mk 1 1 true [JobPhase.running]).held ∧
      ({ GateSys.mk 1 1 true [JobPhase.running] with
            held := (GateSys.mk 1 1 true [JobPhase.running]).held - 1
            jobs := (GateSys.mk 1 1 true [JobPhase.running]).jobs.set i
              (JobPhase.finished failed) } : GateSys).model_loaded = true) :=
  permit_released_on_all_paths 1 1 true (GateSys.mk 1 1 true [JobPhase.running])
    (Relation.ReflTransGen.single
      (Step.acquire (initSys 1 true 1) 0 (by decide) rfl (by decide)))

/-!
## Claims about the lifecycle operations (C4, C5, C6)
-/

theorem load_model_noop_of_loaded (host : Host) (r : Except String Nat)
    (use_fp16 : Bool) (s : MState) (hs : s.model_loaded = true) :
    load_model host r use_fp16 s =
      { state := s, err := none, dispatched := false
        dispatchedDtype := none } := by
  simp [load_model, hs]

theorem loadSeq_of_loaded (host : Host) (rs : List (Except String Nat))
    (use_fp16 : Bool) (s : MState) (hs : s.model_loaded = true) :
    loadSeq host rs use_fp16 s = (s, 0) := by
  induction rs with
  | nil => rfl
  | cons r rest ih =>
      simp [loadSeq, load_model_noop_of_loaded host r use_fp16 s hs, ih]

/-- C4: `load_model` is idempotent once Ready.  A call on an
already-loaded manager returns immediately — no error, no dispatch of
the expensive load, state unchanged (still Ready) — and over any
sequence of sequential `load_model` calls whose first call succeeds, the
expensive load is dispatched exactly once, with the manager loaded at
the end. -/
theorem load_idempotent_once_ready (host : Host) (r : Except String Nat)
    (use_fp16 : Bool) (s t : MState) (p : Nat)
    (rs : List (Except String Nat))
    (hs : s.model_loaded = true)
    (ht : t.model_loaded = false) (htsd : t.executorShutdown = false)
    (hacc : host.cuda_available ∨ host.mps_available) :
    load_model host r use_fp16 s =
      { state := s, err := none, dispatched := false
        dispatchedDtype := none } ∧
    (loadSeq host (Except.ok p :: rs) use_fp16 t).2 = 1 ∧
    (loadSeq host (Except.ok p :: rs) use_fp16 t).1.model_loaded = true := by
  refine ⟨load_model_noop_of_loaded host r use_fp16 s hs, ?_⟩
  have hfirst : load_model host (Except.ok p) use_fp16 t =
      { state := { t with pipeline := some p, model_loaded := true }
        err := none, dispatched := true
        dispatchedDtype := some (dtypeFor t.device use_fp16) } := by
    rcases hacc with hc | hm
    · simp [load_model, ht, htsd, hc]
    · simp [load_model, ht, htsd, hm]
  have hrest := loadSeq_of_loaded host rs use_fp16
    { t with pipeline := some p, model_loaded := true } rfl
  constructor
  · simp [loadSeq, hfirst, hrest]
  · simp [loadSeq, hfirst, hrest]

/-- C4 witness: a second call on the loaded CUDA instance is a no-op,
and the two-call sequence from the fresh instance dispatches once. -/
theorem load_idempotent_once_ready_witness :
    load_model cudaHost (Except.ok 9) true loadedInst =
      { state := loadedInst, err := none, dispatched := false
        dispatchedDtype := none } ∧
    (loadSeq cudaHost (Except.ok 7 :: [Except.ok 9]) true freshInst).2 = 1 ∧
    (loadSeq cudaHost (Except.ok 7 :: [Except.ok 9]) true
        freshInst).1.model_loaded = true :=
  load_idempotent_once_ready cudaHost (Except.ok 9) true loadedInst freshInst
    7 [Except.ok 9] rfl rfl rfl (Or.inl rfl)

/-- C5 counterexample: on a CUDA host, a failed load leaves the manager
in exactly the pre-call Unloaded state — there is no distinct
`LoadFailed` state in the code (`model_manager.py` lines 194-196 only
re-raise; no flag is set) — and a subsequent `load_model` call
re-attempts (dispatches) the expensive load, contrary to the claim. -/
theorem loadFailed_terminal_state_cx :
    (load_model cudaHost (Except.error "disk failure") true freshInst).err
        = some (Err.LoadError "disk failure") ∧
    (load_model cudaHost (Except.error "disk failure") true freshInst).state
        = freshInst ∧
    (load_model cudaHost (Except.ok 7) true
        (load_model cudaHost (Except.error "disk failure") true
          freshInst).state).dispatched = true := by
  refine ⟨rfl, rfl, rfl⟩

/-- C5 amended: when the dispatched load fails, the error propagates to
the caller as a `LoadError` carrying the cause, but the manager has no
distinct `LoadFailed` state: the post-state equals the pre-call Unloaded
state (`model_loaded` still false), and a subsequent `load_model` call
re-attempts the expensive load (there is no automatic retry, but also no
terminal-failure latch). -/
theorem loadFailed_no_terminal_state (host : Host) (e : String)
    (use_fp16 : Bool) (s : MState)
    (hacc : host.cuda_available ∨ host.mps_available)
    (hnl : s.model_loaded = false) (hsd : s.executorShutdown = false) :
    (load_model host (Except.error e) use_fp16 s).err
        = some (Err.LoadError e) ∧
    (load_model host (Except.error e) use_fp16 s).state = s ∧
    (load_model host (Except.error e) use_fp16 s).state.model_loaded
        = false ∧
    ∀ r, (load_model host r use_fp16
        (load_model host (Except.error e) use_fp16 s).state).dispatched
          = true := by
  have hfail : load_model host (Except.error e) use_fp16 s =
      { state := s, err := some (Err.LoadError e), dispatched := true
        dispatchedDtype := some (dtypeFor s.device use_fp16) } := by
    rcases hacc with hc | hm
    · simp [load_model, hnl, hsd, hc]
    · simp [load_model, hnl, hsd, hm]
  refine ⟨by simp [hfail], by simp [hfail], by simp [hfail, hnl], ?_⟩
  intro r
  rw [hfail]
  rcases hacc with hc | hm
  · cases r <;> simp [load_model, hnl, hsd, hc]
  · cases r <;> simp [load_model, hnl, hsd, hm]

/-- C5 amended witness: concrete failing load on the CUDA instance. -/
theorem loadFailed_no_terminal_state_witness :
    (load_model cudaHost (Except.error "disk corruption") true
        freshInst).err = some (Err.LoadError "disk corruption") ∧
    (load_model cudaHost (Except.error "disk corruption") true
        freshInst).state = freshInst ∧
    (load_model cudaHost (Except.error "disk corruption") true
        freshInst).state.model_loaded = false ∧
    ∀ r, (load_model cudaHost r true
        (load_model cudaHost (Except.error "disk corruption") true
          freshInst).state).dispatched = true :=
  loadFailed_no_terminal_state cudaHost "disk corruption" true freshInst
    (Or.inl rfl) rfl rfl

/-- C6: `warmup` is best-effort.  Called while Ready, it returns
normally with the state untouched (still Ready) whatever the underlying
inference did — in particular when the inference fails, the exception is
swallowed (`model_manager.py` lines 228-229).  Called while not Ready,
it raises `NotReady` (line 208). -/
theorem warmup_swallows_failures (r : Except String Unit) (s : MState) :
    (s.model_loaded = true → warmup r s = (s, none)) ∧
    (s.model_loaded = false → warmup r s = (s, some Err.NotReady)) := by
  constructor <;> intro h <;> cases r <;> simp [warmup, h]

/-- C6 witness: a warmup whose inference is made to fail returns
normally on the loaded instance; warmup on the fresh (unloaded) instance
raises `NotReady`. -/
theorem warmup_swallows_failures_witness :
    warmup (Except.error "kernel crash") loadedInst = (loadedInst, none) ∧
    warmup (Except.error "kernel crash") freshInst =
      (freshInst, some Err.NotReady) :=
  ⟨(warmup_swallows_failures (Except.error "kernel crash") loadedInst).1 rfl,
    (warmup_swallows_failures (Except.error "kernel crash") freshInst).2 rfl⟩

/-!
## Claims about construction and teardown (C7, C8, C9) and dtype (C10)
-/

/-- C7 counterexample: the first `get_instance(2)` call builds a thread
pool with `max_workers=1` (`model_manager.py` line 42, a hard-coded
constant), not 2, while the gate capacity is 2 — so the Bridge worker
count is NOT sized to `maxConcurrentJobs` as the claim states. -/
theorem bridge_sized_to_jobs_cx :
    (get_instance cudaHost 2 none).1.executorMaxWorkers = 1 ∧
    (get_instance cudaHost 2 none).1.semaphore = some 2 ∧
    (get_instance cudaHost 2 none).1.executorMaxWorkers ≠ 2 := by
  refine ⟨rfl, rfl, by decide⟩

/-- C7 amended: the first `get_instance` call sizes the Concurrency Gate
to `max_concurrent_jobs`, but the Blocking Work Bridge is a thread pool
with exactly one worker regardless of `max_concurrent_jobs`, so real
blocking parallelism is capped at 1 below the gate's admission limit. -/
theorem bridge_fixed_single_worker (host : Host) (m : Nat) :
    (get_instance host m none).1.executorMaxWorkers = 1 ∧
    (get_instance host m none).1.semaphore = some m :=
  ⟨rfl, rfl⟩

/-- C8: `load_model` on a host with neither CUDA nor MPS fails with
`ResourceUnavailable` before the expensive load is ever dispatched
(`dispatched = false`, nothing was handed to the pool), and the state is
returned untouched: `model_loaded` stays false and no pipeline is
stored — the manager remains Unloaded, with no `LoadFailed`-like
transition. -/
theorem load_no_accelerator_fails_unloaded (host : Host)
    (r : Except String Nat) (use_fp16 : Bool) (s : MState)
    (hcuda : host.cuda_available = false)
    (hmps : host.mps_available = false)
    (hnl : s.model_loaded = false) :
    load_model host r use_fp16 s =
      { state := s
        err := some (Err.ResourceUnavailable
          "No GPU acceleration available. This backend requires CUDA or MPS support.")
        dispatched := false, dispatchedDtype := none } ∧
    (load_model host r use_fp16 s).state.model_loaded = false ∧
    (load_model host r use_fp16 s).state.pipeline = s.pipeline := by
  have h : load_model host r use_fp16 s =
      { state := s
        err := some (Err.ResourceUnavailable
          "No GPU acceleration available. This backend requires CUDA or MPS support.")
        dispatched := false, dispatchedDtype := none } := by
    simp [load_model, hnl, hcuda, hmps]
  exact ⟨h, by simp [h, hnl], by simp [h]⟩

/-- C8 witness: loading `missing-model` on the accelerator-less host
from a fresh instance. -/
theorem load_no_accelerator_fails_unloaded_witness :
    load_model cpuHost (Except.error "missing-model") true
        (get_instance cpuHost 2 none).1 =
      { state := (get_instance cpuHost 2 none).1
        err := some (Err.ResourceUnavailable
          "No GPU acceleration available. This backend requires CUDA or MPS support.")
        dispatched := false, dispatchedDtype := none } ∧
    (load_model cpuHost (Except.error "missing-model") true
        (get_instance cpuHost 2 none).1).state.model_loaded = false ∧
    (load_model cpuHost (Except.error "missing-model") true
        (get_instance cpuHost 2 none).1).state.pipeline
      = (get_instance cpuHost 2 none).1.pipeline :=
  load_no_accelerator_fails_unloaded cpuHost (Except.error "missing-model")
    true (get_instance cpuHost 2 none).1 rfl rfl rfl

/-- C9 counterexample: `cleanup` does not destroy the process-wide
instance — nothing in the module ever resets `_instance` (line 26), so
`get_instance` after a cleanup returns the very same cleaned instance,
whose thread pool was shut down (line 337); the next `load_model` then
fails without even dispatching the load, instead of yielding a working
manager as the claim states. -/
theorem teardown_recreate_cx :
    (get_instance cudaHost 2 (some (cleanup loadedInst))).1
        = cleanup loadedInst ∧
    (cleanup loadedInst).executorShutdown = true ∧
    (load_model cudaHost (Except.ok 8) true
        (get_instance cudaHost 2 (some (cleanup loadedInst))).1).err
      = some (Err.LoadError "cannot schedule new futures after shutdown") ∧
    (load_model cudaHost (Except.ok 8) true
        (get_instance cudaHost 2 (some (cleanup loadedInst))).1).dispatched
      = false ∧
    (load_model cudaHost (Except.ok 8) true
        (get_instance cudaHost 2
          (some (cleanup loadedInst))).1).state.model_loaded = false := by
  refine ⟨rfl, rfl, rfl, rfl, rfl⟩

/-- C9 amended: `cleanup` is idempotent and total (never throws) —
calling it on a never-loaded manager, or twice in a row, is safe — and
it resets the lifecycle to Unloaded (`model_loaded = false`, given the
basic well-formedness that a loaded manager holds a pipeline); but it
does not destroy the process-wide instance: a subsequent `get_instance`
returns the same cleaned instance, whose executor is shut down, so a
subsequent `load_model` fails (with some error, dispatching nothing)
rather than yielding a working manager. -/
theorem cleanup_idempotent_singleton_persists (host : Host) (m : Nat)
    (s : MState) (r : Except String Nat) (use_fp16 : Bool)
    (hwf : s.model_loaded = true → s.pipeline ≠ none) :
    cleanup (cleanup s) = cleanup s ∧
    (cleanup s).model_loaded = false ∧
    get_instance host m (some (cleanup s)) = (cleanup s, some (cleanup s)) ∧
    (load_model host r use_fp16 (cleanup s)).dispatched = false ∧
    (load_model host r use_fp16 (cleanup s)).err ≠ none := by
  have hml : (cleanup s).model_loaded = false := by
    cases hp : s.pipeline with
    | none =>
        cases hl : s.model_loaded with
        | false => simp [cleanup, hp, hl]
        | true => exact absurd hp (hwf hl)
    | some p => simp [cleanup, hp]
  have hsd : (cleanup s).executorShutdown = true := by
    cases hp : s.pipeline <;> simp [cleanup, hp]
  refine ⟨?_, hml, rfl, ?_, ?_⟩
  · cases hp : s.pipeline <;> simp [cleanup, hp]
  · by_cases hacc : host.cuda_available ∨ host.mps_available
    · simp [load_model, hml, hsd, hacc]
    · simp [load_model, hml, hsd, hacc]
  · by_cases hacc : host.cuda_available ∨ host.mps_available
    · simp [load_model, hml, hsd, hacc]
    · simp [load_model, hml, hsd, hacc]

/-- C9 amended witness: the concrete loaded CUDA instance. -/
theorem cleanup_idempotent_singleton_persists_witness :
    cleanup (cleanup loadedInst) = cleanup loadedInst ∧
    (cleanup loadedInst).model_loaded = false ∧
    get_instance cudaHost 2 (some (cleanup loadedInst))
        = (cleanup loadedInst, some (cleanup loadedInst)) ∧
    (load_model cudaHost (Except.ok 8) true
        (cleanup loadedInst)).dispatched = false ∧
    (load_model cudaHost (Except.ok 8) true
        (cleanup loadedInst)).err ≠ none :=
  cleanup_idempotent_singleton_persists cudaHost 2 loadedInst
    (Except.ok 8) true (fun _ => by decide)

/-- C10: dtype selection in `load_model` (lines 156-160).  On MPS a
requested FP16 is silently overridden to FP32; FP16 is actually used
exactly when the device is not MPS and the flag is set — the loaded
precision is a function of (device, flag), and that is the dtype every
dispatched load is given. -/
theorem mps_fp16_silent_override (d : Device) (fp : Bool) (host : Host)
    (r : Except String Nat) (s : MState)
    (hacc : host.cuda_available ∨ host.mps_available)
    (hnl : s.model_loaded = false) (hsd : s.executorShutdown = false) :
    dtypeFor Device.mps true = Dtype.float32 ∧
    (dtypeFor d fp = Dtype.float16 ↔ (d ≠ Device.mps ∧ fp = true)) ∧
    (load_model host r fp s).dispatchedDtype
        = some (dtypeFor s.device fp) := by
  refine ⟨rfl, ?_, ?_⟩
  · cases d <;> cases fp <;> simp [dtypeFor]
  · rcases hacc with hc | hm
    · cases r <;> simp [load_model, hnl, hsd, hc]
    · cases r <;> simp [load_model, hnl, hsd, hm]

/-- C10 witness: a fresh instance on the MPS host, loaded with the FP16
flag set, dispatches the load in FP32. -/
theorem mps_fp16_silent_override_witness :
    dtypeFor Device.mps true = Dtype.float32 ∧
    (dtypeFor Device.mps true = Dtype.float16
        ↔ (Device.mps ≠ Device.mps ∧ true = true)) ∧
    (load_model mpsHost (Except.ok 7) true
        (get_instance mpsHost 2 none).1).dispatchedDtype
      = some (dtypeFor (get_instance mpsHost 2 none).1.device true) :=
  mps_fp16_silent_override Device.mps true mpsHost (Except.ok 7)
    (get_instance mpsHost 2 none).1 (Or.inr rfl) rfl rfl

end LogoGen
